import Mathlib

/-!
Verification of the matrix network-filesystem server against its
specification.  Definitions shallowly embed the Python source:

* `matrix/common/func.py` — POSIX backend operations and `get_full_path`;
* `matrix/server/startup.py` — `full_path` and the dispatcher `handle_request`;
* `matrix/server/config.py` — the `endpoint_config` operation catalogue;
* `matrix/common/schema/input.py` — `WriteInput.decode_base64_data`;
* `src/matrix/common/passthrough/nt.py` — the Windows-NT backend
  (`NtOpenFileManager`, `WindowsNTPassthrough`).

Python strings are modelled as Lean `String`s; the string primitives the
source uses (`startswith`, `endswith`, slicing, `split`) are defined on
the underlying character list so that concrete instances evaluate.
-/

namespace Matrix

/-! ## Python string primitives -/

/-- `s.startswith(pre)`. -/
def startswith (s pre : String) : Bool :=
  pre.data.isPrefixOf s.data

/-- `s.endswith(suf)`. -/
def endswith (s suf : String) : Bool :=
  suf.data.isSuffixOf s.data

/-- `s[n:]` — drop the first `n` characters. -/
def dropChars (s : String) (n : Nat) : String :=
  String.mk (s.data.drop n)

/-- Concatenation of strings (Python `+`). -/
def strCat (a b : String) : String :=
  String.mk (a.data ++ b.data)

/-- `s.split(sep)` for a one-character separator, on character lists. -/
def splitCharList (sep : Char) : List Char → List (List Char)
  | [] => [[]]
  | c :: rest =>
    let r := splitCharList sep rest
    if c = sep then [] :: r
    else
      match r with
      | s :: ss => (c :: s) :: ss
      | [] => [[c]]

/-! ## Path resolution (matrix/common/func.py, matrix/server/startup.py) -/

/-- Two-argument `os.path.join` with POSIX separators, as in
`posixpath.join`: an absolute second component replaces the first;
otherwise the components are concatenated, inserting a slash unless the
first component is empty or already ends in one. -/
def osPathJoin (a b : String) : String :=
  if startswith b "/" then b
  else if a = "" || endswith a "/" then strCat a b
  else strCat a (strCat "/" b)

/-- `get_full_path(root, partial)` from `matrix/common/func.py`: strip one
leading slash from the virtual path, then `os.path.join` it to the root.
`full_path` in `matrix/server/startup.py` is the same computation applied
to the configured `ROOT`, and `WindowsNTPassthrough._full_path` in
`src/matrix/common/passthrough/nt.py` is the same computation applied to
`self.root`. -/
def get_full_path (root part : String) : String :=
  let p := if startswith part "/" then dropChars part 1 else part
  osPathJoin root p

/-- The non-empty `/`-separated segments of a path string. -/
def pathSegments (s : String) : List String :=
  ((splitCharList '/' s.data).filter (fun seg => ¬ seg.isEmpty)).map String.mk

/-- Resolve `.` and `..` segments the way `os.path.normpath` does for an
absolute path: `.` is dropped, `..` removes the previous segment (or is
dropped at the root). -/
def normalizeSegs (segs : List String) : List String :=
  segs.foldl
    (fun acc seg =>
      if seg = "." then acc
      else if seg = ".." then acc.dropLast
      else acc ++ [seg]) []

/-- The location denoted by path `p` lies at or below the location denoted
by `root`: after resolving `.`/`..` segments, `root`'s segments are a
prefix of `p`'s. -/
def resolvesWithin (root p : String) : Bool :=
  (normalizeSegs (pathSegments root)).isPrefixOf (normalizeSegs (pathSegments p))

/-! ## Dispatcher argument construction (matrix/server/startup.py)

`handle_request` builds `operation_args = {arg: getattr(input_data, arg)
for arg in required_args}` (a dict in insertion order, so the declared
order), then mutates the single key `"path"` — when present — to
`full_path(...)`, and finally calls `operation_func(**operation_args)`.
Field values are modelled by a lookup function from field name to the
string value carried by the validated request. -/

/-- The `required_args`-ordered association list of argument names to the
request's field values. -/
def buildArgs (required : List String) (vals : String → String) :
    List (String × String) :=
  required.map (fun a => (a, vals a))

/-- The `if "path" in operation_args: operation_args["path"] =
full_path(operation_args["path"])` step: only the field literally named
`"path"` is resolved against the root. -/
def resolvePathArg (root : String) (args : List (String × String)) :
    List (String × String) :=
  if args.any (fun kv => kv.1 = "path") then
    args.map (fun kv => if kv.1 = "path" then (kv.1, get_full_path root kv.2) else kv)
  else args

/-- The argument list `handle_request` passes to the backend function for
an operation declaring `required`, given the validated request's
string-valued fields. -/
def dispatchArgs (root : String) (required : List String) (vals : String → String) :
    List (String × String) :=
  resolvePathArg root (buildArgs required vals)

/-! The operation catalogue `endpoint_config` from `matrix/server/config.py`:
operation name, declared backend argument names (`args`), and whether a
response payload is produced (`output_type is not None`). -/

/-- One `endpoint_config` entry. -/
structure EndpointEntry where
  name : String
  args : List String
  expectsOutput : Bool
deriving DecidableEq

/-- `endpoint_config` from `matrix/server/config.py` (routes named by
operation; `expectsOutput` is `settings['output_type'] is not None`). -/
def endpoint_config : List EndpointEntry :=
  [ ⟨"access", ["path", "mode"], false⟩,
    ⟨"chmod", ["path", "mode"], false⟩,
    ⟨"chown", ["path", "uid", "gid"], false⟩,
    ⟨"getattr", ["path", "fh"], true⟩,
    ⟨"readdir", ["path", "fh"], true⟩,
    ⟨"readlink", ["path"], true⟩,
    ⟨"mknod", ["path", "mode", "dev"], false⟩,
    ⟨"rmdir", ["path"], false⟩,
    ⟨"mkdir", ["path", "mode"], false⟩,
    ⟨"statfs", ["path"], true⟩,
    ⟨"unlink", ["path"], false⟩,
    ⟨"symlink", ["name", "target"], false⟩,
    ⟨"rename", ["old", "new"], false⟩,
    ⟨"link", ["target", "name"], false⟩,
    ⟨"utimens", ["path", "times"], false⟩,
    ⟨"open", ["path", "flags"], true⟩,
    ⟨"create", ["path", "mode"], true⟩,
    ⟨"read", ["path", "size", "offset", "fh"], true⟩,
    ⟨"write", ["path", "data", "offset", "fh"], true⟩,
    ⟨"truncate", ["path", "length", "fh"], false⟩,
    ⟨"flush", ["path", "fh"], false⟩,
    ⟨"release", ["path", "fh"], false⟩,
    ⟨"fsync", ["path", "datasync", "fh"], false⟩ ]

/-! ## The dispatcher envelope (matrix/server/startup.py, handle_request)

`handle_request` first runs `input_class(**request.json)`; a pydantic
`ValidationError` is answered with `jsonify(e.errors()), 400` and nothing
else happens.  Otherwise it runs the backend function inside
`try/except Exception`, setting `status`/`error`/`data`, and returns the
`FuseResponse` envelope.  Parsing is modelled as an `Except` value, the
backend as a function returning `Except` (the `.error` branch carries
`str(e)` for a raised exception; a normal return carries `some` payload,
or `none` for backend functions returning `None`). -/

/-- The `FuseResponse` model from `src/matrix/common/schema/output.py`,
with the payload type abstracted. -/
structure FuseResponse (Out : Type) where
  status : String
  error : Option String
  data : Option Out
deriving DecidableEq

/-- What `handle_request` replies: either the early 400 validation reply,
or the uniform envelope. -/
inductive HandlerResult (Out : Type) where
  | badRequest (errs : String)
  | envelope (r : FuseResponse Out)
deriving DecidableEq

/-- `handle_request` from `matrix/server/startup.py`.  On a parse failure
the 400 reply is returned before the backend is touched; on a backend
exception `status = "error"`, `error = str(e)` and `data` keeps its
initial `None`; on success `status = "success"`, `error = None` and
`data` is the result when `expects_output` else `None`. -/
def handle_request {In Out : Type} (parse : Except String In)
    (backend : In → Except String (Option Out)) (expectsOutput : Bool) :
    HandlerResult Out :=
  match parse with
  | .error e => .badRequest e
  | .ok input =>
    match backend input with
    | .ok result =>
      .envelope { status := "success", error := none,
                  data := if expectsOutput then result else none }
    | .error e =>
      .envelope { status := "error", error := some e, data := none }

/-! ## Base64 transport of the write payload
(matrix/common/schema/input.py, WriteInput.decode_base64_data)

The validator calls `base64.b64decode(v)` on a string-valued `data`
field.  CPython's decoder (`binascii.a2b_base64`, `strict_mode=False`)
first encodes the string as ASCII, then scans it: characters outside the
base64 alphabet are silently discarded, a pad sequence completing a quad
ends decoding successfully, and an error is raised only when the
characters that survive leave an unfinished quad at the end.  Bytes are
modelled as `Nat`s below 256. -/

/-- The value of a character in the base64 alphabet, `none` for every
other character (which the lenient decoder skips). -/
def b64CharVal (c : Char) : Option Nat :=
  if 'A' ≤ c ∧ c ≤ 'Z' then some (c.toNat - 65)
  else if 'a' ≤ c ∧ c ≤ 'z' then some (c.toNat - 97 + 26)
  else if '0' ≤ c ∧ c ≤ '9' then some (c.toNat - 48 + 52)
  else if c = '+' then some 62
  else if c = '/' then some 63
  else none

/-- The scanning loop of `binascii.a2b_base64` with `strict_mode=False`:
state is the position in the current quad, the pending bits, and the
count of pad characters seen since the last data character.  `none`
models the raised `binascii.Error`. -/
def a2b_base64_loop : List Char → Nat → Nat → Nat → List Nat → Option (List Nat)
  | [], quadPos, _, _, acc => if quadPos = 0 then some acc.reverse else none
  | c :: rest, quadPos, leftchar, pads, acc =>
    if c = '=' then
      if 2 ≤ quadPos ∧ 4 ≤ quadPos + (pads + 1) then some acc.reverse
      else a2b_base64_loop rest quadPos leftchar (pads + 1) acc
    else
      match b64CharVal c with
      | none => a2b_base64_loop rest quadPos leftchar pads acc
      | some v =>
        match quadPos with
        | 0 => a2b_base64_loop rest 1 v 0 acc
        | 1 => a2b_base64_loop rest 2 (v % 16) 0 ((leftchar * 4 + v / 16) :: acc)
        | 2 => a2b_base64_loop rest 3 (v % 4) 0 ((leftchar * 16 + v / 4) :: acc)
        | _ => a2b_base64_loop rest 0 0 0 ((leftchar * 64 + v) :: acc)

/-- `base64.b64decode` applied to a string: the `s.encode('ascii')` step
fails on non-ASCII characters, then the scan runs. -/
def b64decode (s : String) : Option (List Nat) :=
  if s.data.all (fun c => c.toNat < 128) then a2b_base64_loop s.data 0 0 0 []
  else none

/-- The base64 alphabet character at an index. -/
def b64AlphaChar (n : Nat) : Char :=
  ("ABCDEFGHIJKLMNOPQRSTUVWXYZabcdefghijklmnopqrstuvwxyz0123456789+/").data.getD n 'A'

/-- `base64.b64encode` on a byte list: three bytes become four alphabet
characters; a final group of one or two bytes is padded with `=`. -/
def b64encodeList : List Nat → List Char
  | [] => []
  | [b1] => [b64AlphaChar (b1 / 4), b64AlphaChar (b1 % 4 * 16), '=', '=']
  | [b1, b2] =>
    [b64AlphaChar (b1 / 4), b64AlphaChar (b1 % 4 * 16 + b2 / 16),
     b64AlphaChar (b2 % 16 * 4), '=']
  | b1 :: b2 :: b3 :: rest =>
    b64AlphaChar (b1 / 4) :: b64AlphaChar (b1 % 4 * 16 + b2 / 16) ::
    b64AlphaChar (b2 % 16 * 4 + b3 / 64) :: b64AlphaChar (b3 % 64) ::
    b64encodeList rest

/-- `base64.b64encode` as a string. -/
def b64encode (bs : List Nat) : String :=
  String.mk (b64encodeList bs)

/-- The validated `WriteInput` from `matrix/common/schema/input.py`, after
the `data` field has been decoded to raw bytes. -/
structure WriteInput where
  path : String
  data : List Nat
  offset : Nat
  fh : Nat
deriving DecidableEq

/-- Parsing a write request body whose `data` field is the string `raw`:
`WriteInput.decode_base64_data` runs `base64.b64decode(raw)`; on failure
it raises `ValueError('Invalid base64 data')`, which pydantic surfaces as
the `ValidationError` that `handle_request` answers with the 400 reply. -/
def parseWriteInput (path raw : String) (offset fh : Nat) :
    Except String WriteInput :=
  match b64decode raw with
  | some bs => Except.ok ⟨path, bs, offset, fh⟩
  | none => Except.error "Invalid base64 data"

/-! ## POSIX descriptor I/O (matrix/common/func.py, read/write)

`read(path, size, offset, fh)` runs `os.lseek(fh, offset, os.SEEK_SET)`
then `os.read(fh, size)`; `write(path, data, offset, fh)` runs the same
seek then `os.write(fh, data)`.  An open descriptor is modelled by the
file's byte contents and the descriptor offset; bytes are `Nat`s. -/

/-- One open file descriptor: contents of the file and current offset. -/
structure FileState where
  content : List Nat
  pos : Nat
deriving DecidableEq

/-- `os.lseek(fh, offset, os.SEEK_SET)`. -/
def os_lseek (f : FileState) (offset : Nat) : FileState :=
  { f with pos := offset }

/-- `os.read(fh, size)`: up to `size` bytes from the current offset
(short at end of file), advancing the offset. -/
def os_read (f : FileState) (size : Nat) : FileState × List Nat :=
  let bytes := (f.content.drop f.pos).take size
  ({ f with pos := f.pos + bytes.length }, bytes)

/-- `os.write(fh, data)`: the bytes land at the current offset (a seek
past the end leaves a zero-filled gap), the offset advances, and the
count written is returned. -/
def os_write (f : FileState) (data : List Nat) : FileState × Nat :=
  let newContent :=
    f.content.take f.pos ++ List.replicate (f.pos - f.content.length) 0
      ++ data ++ f.content.drop (f.pos + data.length)
  ({ content := newContent, pos := f.pos + data.length }, data.length)

/-- `read` from `matrix/common/func.py` (the payload of `ReadOutput`). -/
def posix_read (f : FileState) (size offset : Nat) : FileState × List Nat :=
  os_read (os_lseek f offset) size

/-- `write` from `matrix/common/func.py` (the payload of `WriteOutput` is
the returned count). -/
def posix_write (f : FileState) (data : List Nat) (offset : Nat) :
    FileState × Nat :=
  os_write (os_lseek f offset) data

/-! ## The Windows-NT backend (src/matrix/common/passthrough/nt.py) -/

/-- `errno.ENOENT`. -/
def ENOENT : Nat := 2
/-- `errno.EBADF`. -/
def EBADF : Nat := 9
/-- `errno.EEXIST`. -/
def EEXIST : Nat := 17
/-- `errno.EINVAL`. -/
def EINVAL : Nat := 22

/-- `os.O_RDONLY` (0 on the Windows CRT). -/
def O_RDONLY : Nat := 0
/-- `os.O_WRONLY` (1 on the Windows CRT). -/
def O_WRONLY : Nat := 1
/-- `os.O_RDWR` (2 on the Windows CRT). -/
def O_RDWR : Nat := 2
/-- `os.O_CREAT` (0x100 on the Windows CRT). -/
def O_CREAT : Nat := 256
/-- `os.O_EXCL` (0x400 on the Windows CRT). -/
def O_EXCL : Nat := 1024

/-- One entry of `NtOpenFileManager.open_files`: the dict maps a handle
id to `{'path': path, 'flags': flags}`. -/
structure NtEntry where
  fh : Nat
  path : String
  flags : Nat
deriving DecidableEq

/-- `NtOpenFileManager.open_files`, a dict in insertion order with the
handle ids as keys. -/
abbrev NtRegistry := List NtEntry

/-- `NtOpenFileManager.is_open`: `fh in self.open_files`. -/
def ntIsOpen (reg : NtRegistry) (fh : Nat) : Bool :=
  reg.any (fun e => e.fh = fh)

/-- `NtOpenFileManager.get`: the entry for `fh`, or `None` (after a
warning log) when the handle is not registered. -/
def ntGet (reg : NtRegistry) (fh : Nat) : Option NtEntry :=
  reg.find? (fun e => e.fh = fh)

/-- `NtOpenFileManager.add`: `self.open_files[fh] = {...}` — inserts, or
overwrites in place after a warning when the id is already present. -/
def ntAdd (reg : NtRegistry) (fh : Nat) (path : String) (flags : Nat) :
    NtRegistry :=
  if ntIsOpen reg fh then
    reg.map (fun e => if e.fh = fh then ⟨fh, path, flags⟩ else e)
  else reg ++ [⟨fh, path, flags⟩]

/-- The backend's state: the set of filesystem objects (by full path),
the open-file registry, and the OS descriptor table.  The contents of a
file not currently open through a descriptor are not tracked; no claim
below depends on them. -/
structure NtState where
  files : List String
  reg : NtRegistry
  descs : List (Nat × FileState)
deriving DecidableEq

/-- The OS file behind descriptor `fh` (the OS guarantees a descriptor in
the registry is valid, so the default is never hit from registered ids). -/
def getDesc (s : NtState) (fh : Nat) : FileState :=
  ((s.descs.find? (fun d => d.1 = fh)).map Prod.snd).getD ⟨[], 0⟩

/-- Replace the OS file behind descriptor `fh`. -/
def setDesc (s : NtState) (fh : Nat) (f : FileState) : NtState :=
  { s with descs := s.descs.map (fun d => if d.1 = fh then (fh, f) else d) }

/-- `NtOpenFileManager.remove`, at the state level: when `fh` is
registered, `os.close(fh)` runs and the entry is deleted (an `OSError`
from the close would be re-raised as a bad-handle error; the close is
modelled as succeeding); when `fh` is absent only a warning is logged —
nothing is closed, nothing is raised, the registry is unchanged.  The
result carries the new state, the descriptor that was closed (if any),
and the errno raised (if any). -/
def ntRemove (s : NtState) (fh : Nat) : NtState × Option Nat × Option Nat :=
  if ntIsOpen s.reg fh then
    ({ s with reg := s.reg.filter (fun e => e.fh ≠ fh),
              descs := s.descs.filter (fun d => d.1 ≠ fh) }, some fh, none)
  else (s, none, none)

/-- `WindowsNTPassthrough.release`: `self.file_manager.remove(fh)`. -/
def nt_release (s : NtState) (fh : Nat) : NtState × Option Nat × Option Nat :=
  ntRemove s fh

/-- `WindowsNTPassthrough.read`: raise `EBADF` unless the handle is
registered, else seek and read on the OS descriptor. -/
def nt_read (s : NtState) (size offset fh : Nat) :
    Except Nat (NtState × List Nat) :=
  if ntIsOpen s.reg fh = false then Except.error EBADF
  else
    let r := posix_read (getDesc s fh) size offset
    Except.ok (setDesc s fh r.1, r.2)

/-- `WindowsNTPassthrough.write`: raise `EBADF` unless the handle is
registered, else seek and write on the OS descriptor, returning the
count written. -/
def nt_write (s : NtState) (data : List Nat) (offset fh : Nat) :
    Except Nat (NtState × Nat) :=
  if ntIsOpen s.reg fh = false then Except.error EBADF
  else
    let r := posix_write (getDesc s fh) data offset
    Except.ok (setDesc s fh r.1, r.2)

/-- `os.ftruncate`: cut or zero-extend the contents to `length`. -/
def fileTruncate (f : FileState) (length : Nat) : FileState :=
  { f with content := f.content.take length
      ++ List.replicate (length - f.content.length) 0 }

/-- `WindowsNTPassthrough.truncate`: with a handle, raise `EBADF` unless
it is registered, else `os.ftruncate`; without one, open the full path
(`ENOENT` when it does not exist) and truncate it by path. -/
def nt_truncate (root : String) (s : NtState) (path : String) (length : Nat) :
    Option Nat → Except Nat NtState
  | some fh =>
    if ntIsOpen s.reg fh = false then Except.error EBADF
    else Except.ok (setDesc s fh (fileTruncate (getDesc s fh) length))
  | none =>
    if get_full_path root path ∈ s.files then Except.ok s
    else Except.error ENOENT

/-- `WindowsNTPassthrough.flush`: `file_manager.get(fh)` returning `None`
is answered with `EBADF`; otherwise `os.fsync` runs only when the
recorded open flags contain `O_WRONLY` or `O_RDWR` (the returned flag
records whether it ran). -/
def nt_flush (s : NtState) (fh : Nat) : Except Nat Bool :=
  match ntGet s.reg fh with
  | none => Except.error EBADF
  | some e =>
    if e.flags.land (O_WRONLY ||| O_RDWR) ≠ 0 then Except.ok true
    else Except.ok false

/-- `WindowsNTPassthrough.fsync`: raise `EBADF` unless the handle is
registered, else `os.fdatasync`/`os.fsync` (no modelled effect). -/
def nt_fsync (s : NtState) (_datasync : Bool) (fh : Nat) : Except Nat Unit :=
  if ntIsOpen s.reg fh = false then Except.error EBADF
  else Except.ok ()

/-- The reserved device basenames
(`WindowsNTPassthrough.reserved_names`). -/
def reserved_names : List String :=
  ["CON", "PRN", "AUX", "NUL", "COM1", "COM2", "COM3", "COM4",
   "COM5", "COM6", "COM7", "COM8", "COM9", "LPT1", "LPT2",
   "LPT3", "LPT4", "LPT5", "LPT6", "LPT7", "LPT8", "LPT9"]

/-- `ntpath.basename`: the part of the path after the last forward or
backward slash (drive-relative forms such as `C:name`, which cannot
reach this backend through `_full_path`, are not treated specially). -/
def ntBasename (p : String) : String :=
  String.mk (p.data.foldl
    (fun acc c => if c = '/' ∨ c = '\\' then [] else acc ++ [c]) [])

/-- Python `str.upper()` (the names compared are ASCII). -/
def pyUpper (s : String) : String :=
  String.mk (s.data.map Char.toUpper)

/-- `WindowsNTPassthrough._check_reserved_name` as a predicate: the
upper-cased basename equals a reserved name or starts with a reserved
name followed by a dot; when it holds the method raises
`FuseOSError(errno.EINVAL)`. -/
def ntIsReservedName (path : String) : Bool :=
  let name := pyUpper (ntBasename path)
  reserved_names.contains name
    || reserved_names.any (fun rn => startswith name (strCat rn "."))

/-- `WindowsNTPassthrough.create`: resolve the path, reject reserved
basenames with `EINVAL`, else `os.open(O_WRONLY|O_CREAT|O_EXCL)` — on
`EEXIST` the file is reopened with `O_WRONLY` — set permissions, and
register the new handle (the OS picks the fresh descriptor id `newFh`).
The `FuseOSError(EINVAL)` raised by the reserved-name check inside the
`try` block is caught by `except OSError` and re-raised unchanged, since
its errno is not `EEXIST`. -/
def nt_create (root : String) (s : NtState) (path : String) (newFh : Nat) :
    NtState × Except Nat Nat :=
  let full := get_full_path root path
  if ntIsReservedName full then (s, Except.error EINVAL)
  else if full ∈ s.files then
    ({ s with reg := ntAdd s.reg newFh full O_WRONLY,
              descs := s.descs ++ [(newFh, ⟨[], 0⟩)] }, Except.ok newFh)
  else
    ({ files := full :: s.files,
       reg := ntAdd s.reg newFh full (O_WRONLY ||| O_CREAT),
       descs := s.descs ++ [(newFh, ⟨[], 0⟩)] }, Except.ok newFh)

/-- `WindowsNTPassthrough.mkdir`: resolve the path, reject reserved
basenames with `EINVAL`, else `os.mkdir` (`EEXIST` when the object
already exists) followed by the permission step. -/
def nt_mkdir (root : String) (s : NtState) (path : String) :
    NtState × Except Nat Unit :=
  let full := get_full_path root path
  if ntIsReservedName full then (s, Except.error EINVAL)
  else if full ∈ s.files then (s, Except.error EEXIST)
  else ({ s with files := full :: s.files }, Except.ok ())

/-- The handle-closing loop shared by `unlink` and `rename`: iterate over
a snapshot of `open_files.items()` and `remove` every handle whose
recorded path equals the resolved target. -/
def ntCloseMatching (reg : NtRegistry) (full : String) : NtRegistry :=
  match reg with
  | [] => []
  | e :: rest =>
    if e.path = full then ntCloseMatching rest full
    else e :: ntCloseMatching rest full

/-- `WindowsNTPassthrough.unlink`: resolve the path, close every handle
registered on it, then `os.unlink` (`ENOENT` when absent — raised after
the handles were already closed). -/
def nt_unlink (root : String) (s : NtState) (path : String) :
    NtState × Except Nat Unit :=
  let full := get_full_path root path
  let s1 := { s with reg := ntCloseMatching s.reg full }
  if full ∈ s1.files then
    ({ s1 with files := s1.files.erase full }, Except.ok ())
  else (s1, Except.error ENOENT)

/-- `WindowsNTPassthrough.rename`: resolve both paths, close every handle
registered on the old one, then `os.rename` followed by the permission
step on the new path. -/
def nt_rename (root : String) (s : NtState) (old new : String) :
    NtState × Except Nat Unit :=
  let fullOld := get_full_path root old
  let fullNew := get_full_path root new
  let s1 := { s with reg := ntCloseMatching s.reg fullOld }
  if fullOld ∈ s1.files then
    ({ s1 with files := fullNew :: s1.files.erase fullOld }, Except.ok ())
  else (s1, Except.error ENOENT)

/-! ## Timestamp transport in getattr

`fuse_getattr` in `matrix/common/func.py` copies `st.st_atime`,
`st.st_mtime` and `st.st_ctime` unchanged into `GetattrOutput`'s `float`
fields; `WindowsNTPassthrough.getattr` returns `int(st.st_atime)`,
`int(st.st_mtime)`, `int(st.st_ctime)`.  Timestamps are modelled as
exact rationals (the float representation is faithful well below the
millisecond at filesystem-epoch magnitudes, and plays no part in the
claims settled here). -/

/-- Python `int()` on a number: truncation toward zero. -/
def pyInt (q : ℚ) : ℤ :=
  if 0 ≤ q then ⌊q⌋ else ⌈q⌉

/-- A timestamp as transported by the POSIX backend's `getattr`. -/
def posixGetattrTime (t : ℚ) : ℚ := t

/-- A timestamp as transported by the Windows-NT backend's `getattr`. -/
def ntGetattrTime (t : ℚ) : ℚ := (pyInt t : ℚ)

end Matrix

namespace Matrix

/-- `get_full_path` performs naive concatenation: a `..` segment in the
virtual path survives into the resolved string unchanged. -/
theorem get_full_path_dotdot :
    get_full_path "/srv/root" "/../secret" = "/srv/root/../secret" := by
  decide

/-- C2: the server resolves the virtual path `"/../secret"` against the
root `"/srv/root"` to the string `"/srv/root/../secret"`, which denotes a
location outside the root (after `..` resolution its segments are
`["srv", "secret"]`, not below `["srv", "root"]`).  The containment
property claimed for all `..`-bearing virtual paths therefore fails on
the code: `full_path`/`get_full_path` concatenate without normalization. -/
theorem C2_path_escape :
    resolvesWithin "/srv/root" (get_full_path "/srv/root" "/../secret") = false
    ∧ normalizeSegs (pathSegments (get_full_path "/srv/root" "/../secret"))
        = ["srv", "secret"] := by
  constructor <;> decide

/-- C1: the dispatcher resolves only the field literally named `"path"`.
For the catalogue's `rename` entry (declared arguments `old`, `new`) the
virtual paths are handed to the backend unresolved — `old = "/a"` stays
`"/a"` instead of becoming `"/srv/root/a"` — whereas a field named
`path` is resolved under the root.  This refutes the claim that the
`old`/`new`, `name`/`target` and `target`/`name` fields are resolved
like `path`. -/
theorem C1_rename_fields_unresolved :
    (endpoint_config.filter (fun e => e.name = "rename")).map EndpointEntry.args
      = [["old", "new"]]
    ∧ dispatchArgs "/srv/root" ["old", "new"]
        (fun a => if a = "old" then "/a" else "/b")
      = [("old", "/a"), ("new", "/b")]
    ∧ dispatchArgs "/srv/root" ["path", "mode"]
        (fun a => if a = "path" then "/a" else "420")
      = [("path", "/srv/root/a"), ("mode", "420")] := by
  refine ⟨by decide, by decide, by decide⟩

/-- C4: every envelope `handle_request` emits satisfies the invariant:
`status = "error"` iff `error` is non-null and `data` is null, and
`status = "success"` iff `error` is null. -/
theorem C4_envelope_invariant {In Out : Type} (parse : Except String In)
    (backend : In → Except String (Option Out)) (expectsOutput : Bool)
    (r : FuseResponse Out)
    (h : handle_request parse backend expectsOutput = .envelope r) :
    (r.status = "error" ↔ r.error ≠ none ∧ r.data = none)
    ∧ (r.status = "success" ↔ r.error = none) := by
  cases parse with
  | error e => simp [handle_request] at h
  | ok input =>
    cases hb : backend input with
    | ok result =>
      simp [handle_request, hb] at h
      subst h
      simp
    | error e =>
      simp [handle_request, hb] at h
      subst h
      simp

/-- Witness for C4 at a concrete dispatch: a successful void backend call
yields the envelope `⟨"success", none, none⟩`, which satisfies the
invariant. -/
theorem C4_envelope_invariant_witness :
    (("success" : String) = "error" ↔
        (none : Option String) ≠ none ∧ (none : Option Unit) = none)
    ∧ (("success" : String) = "success" ↔ (none : Option String) = none) :=
  C4_envelope_invariant (Except.ok ()) (fun _ => Except.ok none) true
    ⟨"success", none, none⟩ rfl

/-- C5: (a) a request that fails schema validation is answered with the
400 reply, identically for every backend — the backend is never invoked;
(b) an exception raised by the backend is caught and turned into an
error envelope carrying its message, never propagated. -/
theorem C5_validation_gate_and_exception_catch {In Out : Type}
    (expectsOutput : Bool) :
    (∀ (e : String) (backend backend2 : In → Except String (Option Out)),
        handle_request (Except.error e) backend expectsOutput
          = HandlerResult.badRequest e
        ∧ handle_request (Except.error e) backend expectsOutput
          = handle_request (Except.error e) backend2 expectsOutput)
    ∧ (∀ (input : In) (parse : Except String In)
          (backend : In → Except String (Option Out)) (msg : String),
        parse = Except.ok input → backend input = Except.error msg →
        handle_request parse backend expectsOutput
          = HandlerResult.envelope ⟨"error", some msg, none⟩) := by
  constructor
  · intro e backend backend2
    exact ⟨rfl, rfl⟩
  · intro input parse backend msg hp hb
    subst hp
    simp [handle_request, hb]

/-- Witness for C5 at concrete dispatches: a failed parse yields the 400
reply, and a backend raising `"boom"` yields the error envelope. -/
theorem C5_validation_gate_and_exception_catch_witness :
    handle_request (Except.error "bad") (fun _ : Unit => Except.ok (none : Option Unit)) true
      = HandlerResult.badRequest "bad"
    ∧ handle_request (Except.ok ()) (fun _ : Unit => Except.error (α := Option Unit) "boom") true
      = HandlerResult.envelope ⟨"error", some "boom", none⟩ :=
  ⟨((C5_validation_gate_and_exception_catch true).1 "bad" _
      (fun _ : Unit => Except.ok (none : Option Unit))).1,
   (C5_validation_gate_and_exception_catch true).2 ()
      _ _ "boom" rfl rfl⟩

/-- Every `b64encode` output has a length that is a multiple of four. -/
theorem b64encodeList_length_mod (bs : List Nat) :
    (b64encodeList bs).length % 4 = 0 := by
  induction bs using b64encodeList.induct with
  | case1 => simp [b64encodeList]
  | case2 b1 => simp [b64encodeList]
  | case3 b1 b2 => simp [b64encodeList]
  | case4 b1 b2 b3 rest ih =>
    simp only [b64encodeList, List.length_cons]
    omega

/-- C8: the string `"!!!"` is not a valid base64 encoding (no byte list
encodes to it), yet the lenient decoder used by
`WriteInput.decode_base64_data` accepts it — the `!` characters are
silently discarded and it decodes to the empty byte string — so the
write request is not rejected: it reaches the backend carrying `b""`.
This refutes the claim that every non-base64 `data` string fails
validation before the backend is invoked. -/
theorem C8_invalid_base64_reaches_backend :
    (¬ ∃ bs : List Nat, b64encode bs = "!!!")
    ∧ b64decode "!!!" = some []
    ∧ handle_request (parseWriteInput "/f" "!!!" 0 3)
        (fun i => Except.ok (some i.data)) true
      = HandlerResult.envelope ⟨"success", none, some []⟩ := by
  refine ⟨?_, by decide, by decide⟩
  rintro ⟨bs, h⟩
  have hlen : (b64encodeList bs).length = 3 := by
    have := congrArg (fun s => s.data.length) h
    simpa [b64encode] using this
  have := b64encodeList_length_mod bs
  omega

/-- C8 (amended): whenever `base64.b64decode` does fail on the `data`
string, the request is answered with the 400 validation reply, for every
backend alike — the backend write function is never invoked. -/
theorem C8_decode_failure_rejected {Out : Type} (path raw : String)
    (offset fh : Nat) (h : b64decode raw = none)
    (backend : WriteInput → Except String (Option Out))
    (expectsOutput : Bool) :
    handle_request (parseWriteInput path raw offset fh) backend expectsOutput
      = HandlerResult.badRequest "Invalid base64 data" := by
  simp [parseWriteInput, h, handle_request]

/-- Witness for the amended C8 at the concrete string `"a"`, whose single
data character leaves an unfinished quad, so decoding fails. -/
theorem C8_decode_failure_rejected_witness :
    b64decode "a" = none
    ∧ handle_request (parseWriteInput "/f" "a" 0 3)
        (fun i => Except.ok (some i.data)) true
      = HandlerResult.badRequest "Invalid base64 data" :=
  ⟨by decide,
   C8_decode_failure_rejected "/f" "a" 0 3 (by decide)
     (fun i => Except.ok (some i.data)) true⟩

/-- The zero-fill prefix written before the data has exactly the seek
offset's length. -/
theorem write_prefix_length (content : List Nat) (offset : Nat) :
    (content.take offset ++ List.replicate (offset - content.length) 0).length
      = offset := by
  simp [List.length_take, List.length_replicate]
  omega

/-- C6: a `write(path, B, O, fh)` followed by `read(path, len(B), O, fh)`
on the same descriptor returns exactly `B`, for every prior file state,
byte sequence and offset; and the write reports `len(B)` bytes written. -/
theorem C6_write_read_roundtrip (f : FileState) (data : List Nat)
    (offset : Nat) :
    (posix_read (posix_write f data offset).1 data.length offset).2 = data
    ∧ (posix_write f data offset).2 = data.length := by
  refine ⟨?_, rfl⟩
  simp only [posix_read, posix_write, os_lseek, os_read, os_write,
    List.append_assoc]
  rw [← List.append_assoc]
  rw [List.drop_left' (write_prefix_length f.content offset)]
  exact List.take_left ..

/-- C3 counterexample: on a backend with the single open handle 5,
releasing it twice closes descriptor 5 the first time, and the second
release closes nothing, changes nothing and raises nothing — a silent
no-op, not the claimed `EBADF`-class rejection. -/
theorem C3_double_release_silent :
    (nt_release ⟨["/r/a"], [⟨5, "/r/a", O_WRONLY⟩], [(5, ⟨[], 0⟩)]⟩ 5).2
      = (some 5, none)
    ∧ nt_release (nt_release ⟨["/r/a"], [⟨5, "/r/a", O_WRONLY⟩],
          [(5, ⟨[], 0⟩)]⟩ 5).1 5
      = ((nt_release ⟨["/r/a"], [⟨5, "/r/a", O_WRONLY⟩],
          [(5, ⟨[], 0⟩)]⟩ 5).1, none, none) := by
  constructor <;> decide

/-- C3 (amended): in the Windows-NT backend, `read`, `write`,
handle-based `truncate`, `flush` and `fsync` against a handle id absent
from the registry raise `EBADF`; `release` against an absent id —
including the second release of an id — is a silent no-op: the state is
unchanged, no OS close is attempted (so no descriptor is ever closed
twice through the registry), and no error is raised. -/
theorem C3_unknown_handle_behavior (s : NtState)
    (size offset fh length : Nat) (data : List Nat) (datasync : Bool)
    (root path : String) (h : ntIsOpen s.reg fh = false) :
    nt_read s size offset fh = Except.error EBADF
    ∧ nt_write s data offset fh = Except.error EBADF
    ∧ nt_truncate root s path length (some fh) = Except.error EBADF
    ∧ nt_flush s fh = Except.error EBADF
    ∧ nt_fsync s datasync fh = Except.error EBADF
    ∧ nt_release s fh = (s, none, none) := by
  have hget : ntGet s.reg fh = none := by
    rw [ntGet, List.find?_eq_none]
    intro e he
    have hall := List.any_eq_false.mp h
    simpa using hall e he
  refine ⟨?_, ?_, ?_, ?_, ?_, ?_⟩ <;>
    simp [nt_read, nt_write, nt_truncate, nt_flush, nt_fsync,
      nt_release, ntRemove, h, hget]

/-- Witness for the amended C3 on a concrete one-handle backend state and
the absent handle id 7. -/
theorem C3_unknown_handle_behavior_witness :
    nt_read ⟨["/r/a"], [⟨5, "/r/a", 1⟩], [(5, ⟨[], 0⟩)]⟩ 4 0 7
      = Except.error EBADF
    ∧ nt_write ⟨["/r/a"], [⟨5, "/r/a", 1⟩], [(5, ⟨[], 0⟩)]⟩ [104, 105] 0 7
      = Except.error EBADF
    ∧ nt_truncate "/r" ⟨["/r/a"], [⟨5, "/r/a", 1⟩], [(5, ⟨[], 0⟩)]⟩ "/a" 0
        (some 7) = Except.error EBADF
    ∧ nt_flush ⟨["/r/a"], [⟨5, "/r/a", 1⟩], [(5, ⟨[], 0⟩)]⟩ 7
      = Except.error EBADF
    ∧ nt_fsync ⟨["/r/a"], [⟨5, "/r/a", 1⟩], [(5, ⟨[], 0⟩)]⟩ false 7
      = Except.error EBADF
    ∧ nt_release ⟨["/r/a"], [⟨5, "/r/a", 1⟩], [(5, ⟨[], 0⟩)]⟩ 7
      = (⟨["/r/a"], [⟨5, "/r/a", 1⟩], [(5, ⟨[], 0⟩)]⟩, none, none) :=
  C3_unknown_handle_behavior ⟨["/r/a"], [⟨5, "/r/a", 1⟩], [(5, ⟨[], 0⟩)]⟩
    4 0 7 0 [104, 105] false "/r" "/a" (by decide)

/-- C7: `create` and `mkdir` on any path whose resolved basename is a
reserved device name (the `_check_reserved_name` predicate: `CON`, `PRN`,
`AUX`, `NUL`, `COM1`–`COM9`, `LPT1`–`LPT9`, case-insensitively, bare or
followed by a dot and an extension) fail with `EINVAL` and leave the
state untouched: no filesystem object is created and no handle is
registered. -/
theorem C7_reserved_name_rejected (root : String) (s : NtState)
    (path : String) (newFh : Nat)
    (h : ntIsReservedName (get_full_path root path) = true) :
    nt_create root s path newFh = (s, Except.error EINVAL)
    ∧ nt_mkdir root s path = (s, Except.error EINVAL) := by
  constructor
  · simp [nt_create, h]
  · simp [nt_mkdir, h]

/-- Witness for C7 at `create`/`mkdir` of the virtual path `"/con.TXT"`
under the root `"C:/data"`. -/
theorem C7_reserved_name_rejected_witness :
    ntIsReservedName (get_full_path "C:/data" "/con.TXT") = true
    ∧ nt_create "C:/data" ⟨[], [], []⟩ "/con.TXT" 3
        = (⟨[], [], []⟩, Except.error EINVAL)
    ∧ nt_mkdir "C:/data" ⟨[], [], []⟩ "/con.TXT"
        = (⟨[], [], []⟩, Except.error EINVAL) :=
  ⟨by decide,
   C7_reserved_name_rejected "C:/data" ⟨[], [], []⟩ "/con.TXT" 3 (by decide)⟩

/-- C9 counterexample: a source timestamp of 1.5 seconds is delivered by
the Windows-NT backend's `getattr` as 1 — the transported value differs
from the source by half a second, not by less than a millisecond. -/
theorem C9_nt_subsecond_lost :
    ntGetattrTime (3 / 2 : ℚ) = 1
    ∧ (3 / 2 : ℚ) - ntGetattrTime (3 / 2) = 1 / 2
    ∧ ¬ ((1 / 2 : ℚ) < 1 / 1000) := by
  have hfl : ⌊(3 / 2 : ℚ)⌋ = 1 := by
    rw [Int.floor_eq_iff] <;> norm_num
  have hp : pyInt (3 / 2 : ℚ) = 1 := by
    rw [pyInt, if_pos (by norm_num)]
    exact hfl
  refine ⟨?_, ?_, by norm_num⟩
  · rw [ntGetattrTime, hp]; norm_num
  · rw [ntGetattrTime, hp]; norm_num

/-- C9 (amended): the POSIX backend's `getattr` transports timestamps
exactly, while the Windows-NT backend truncates them to whole seconds:
the delivered value is within one second below the source value, but
sub-second (in particular millisecond) precision is lost. -/
theorem C9_posix_exact_nt_truncated (t : ℚ) (h : 0 ≤ t) :
    posixGetattrTime t = t
    ∧ t - 1 < ntGetattrTime t
    ∧ ntGetattrTime t ≤ t := by
  refine ⟨rfl, ?_, ?_⟩
  · rw [ntGetattrTime, pyInt, if_pos h]
    exact Int.sub_one_lt_floor t
  · rw [ntGetattrTime, pyInt, if_pos h]
    exact Int.floor_le t

/-- Witness for the amended C9 at the timestamp 3/2. -/
theorem C9_posix_exact_nt_truncated_witness :
    posixGetattrTime (3 / 2 : ℚ) = 3 / 2
    ∧ (3 / 2 : ℚ) - 1 < ntGetattrTime (3 / 2)
    ∧ ntGetattrTime (3 / 2 : ℚ) ≤ 3 / 2 :=
  C9_posix_exact_nt_truncated (3 / 2) (by norm_num)

/-- The handle-closing loop of `unlink`/`rename` keeps exactly the
entries registered on other paths. -/
theorem ntCloseMatching_eq_filter (reg : NtRegistry) (full : String) :
    ntCloseMatching reg full = reg.filter (fun e => e.path ≠ full) := by
  induction reg with
  | nil => rfl
  | cons a rest ih =>
    rw [ntCloseMatching, List.filter_cons]
    by_cases h : a.path = full
    · simp [h, ih]
    · simp [h, ih]

/-- The registry left by `unlink` is the close-matching loop's result. -/
theorem nt_unlink_reg (root : String) (s : NtState) (path : String) :
    (nt_unlink root s path).1.reg
      = ntCloseMatching s.reg (get_full_path root path) := by
  simp only [nt_unlink]
  split <;> rfl

/-- The registry left by `rename` is the close-matching loop's result on
the old path. -/
theorem nt_rename_reg (root : String) (s : NtState) (old new : String) :
    (nt_rename root s old new).1.reg
      = ntCloseMatching s.reg (get_full_path root old) := by
  simp only [nt_rename]
  split <;> rfl

/-- C10: after `unlink(path)` no registry entry references the resolved
target path, entries on other paths all survive, and no entry appears
from nowhere; likewise after `rename(old, new)` with respect to the
resolved old path.  (The handles are closed before the OS
unlink/rename runs, so this holds whether or not that call succeeds —
in particular for every successful operation.) -/
theorem C10_unlink_rename_purge_handles (root : String) (s : NtState)
    (path old new : String) :
    (∀ e ∈ (nt_unlink root s path).1.reg, e.path ≠ get_full_path root path)
    ∧ (∀ e ∈ s.reg, e.path ≠ get_full_path root path →
        e ∈ (nt_unlink root s path).1.reg)
    ∧ (∀ e ∈ (nt_unlink root s path).1.reg, e ∈ s.reg)
    ∧ (∀ e ∈ (nt_rename root s old new).1.reg, e.path ≠ get_full_path root old)
    ∧ (∀ e ∈ s.reg, e.path ≠ get_full_path root old →
        e ∈ (nt_rename root s old new).1.reg)
    ∧ (∀ e ∈ (nt_rename root s old new).1.reg, e ∈ s.reg) := by
  rw [nt_unlink_reg, nt_rename_reg, ntCloseMatching_eq_filter,
    ntCloseMatching_eq_filter]
  refine ⟨?_, ?_, ?_, ?_, ?_, ?_⟩ <;> intro e he
  · exact of_decide_eq_true (List.mem_filter.mp he).2
  · intro hp
    exact List.mem_filter.mpr ⟨he, decide_eq_true hp⟩
  · exact List.mem_of_mem_filter he
  · exact of_decide_eq_true (List.mem_filter.mp he).2
  · intro hp
    exact List.mem_filter.mpr ⟨he, decide_eq_true hp⟩
  · exact List.mem_of_mem_filter he

/-- Witness for C10 on a concrete registry holding handles on the target
path and on another path: the other-path handle survives `unlink`, the
target-path handle is purged. -/
theorem C10_unlink_rename_purge_handles_witness :
    ((⟨6, "/r/b", 1⟩ : NtEntry)
      ∈ (nt_unlink "/r" ⟨["/r/a"], [⟨5, "/r/a", 1⟩, ⟨6, "/r/b", 1⟩], []⟩
          "/a").1.reg)
    ∧ ∀ e ∈ (nt_unlink "/r" ⟨["/r/a"], [⟨5, "/r/a", 1⟩, ⟨6, "/r/b", 1⟩], []⟩
          "/a").1.reg, e.path ≠ get_full_path "/r" "/a" :=
  ⟨((C10_unlink_rename_purge_handles "/r"
      ⟨["/r/a"], [⟨5, "/r/a", 1⟩, ⟨6, "/r/b", 1⟩], []⟩ "/a" "/a" "/b").2.1)
      ⟨6, "/r/b", 1⟩ (by decide) (by decide),
   (C10_unlink_rename_purge_handles "/r"
      ⟨["/r/a"], [⟨5, "/r/a", 1⟩, ⟨6, "/r/b", 1⟩], []⟩ "/a" "/a" "/b").1⟩

end Matrix
